import Mathlib

/-!
Verification development for the `cloud-portfolio` serverless catalog/checkout
Lambda (`lambda_function.py`).  The Python source is shallowly embedded:

* Python's binary floating point numbers (the values `json.loads` produces for
  fractional JSON literals) are modelled exactly as rational numbers together
  with an explicit IEEE-754 binary64 round-to-nearest-even rounding function
  (`fpRound`, covering the normal range, which contains every value appearing
  in this development).
* Python's `decimal.Decimal` values are exact rationals.
* `Decimal(str(x))` on a float `x` is modelled by `pyFloatToDec`: the shortest
  round-tripping decimal representation of `x` (CPython's `repr` algorithm).
* Handlers become total Lean functions over an explicit event, an explicit
  outcome oracle for the external stores (`World`), and explicit store states;
  Python exceptions become `Except String` values.
-/

/-- Fuel-driven floor logarithm base `b` (the fuel only bounds the recursion
depth; calling with fuel `n` is always enough for input `n`).  Structural
recursion is used so that the kernel can evaluate it inside `decide`. -/
def natLogF (b : ℕ) : ℕ → ℕ → ℕ
  | 0, _ => 0
  | fuel + 1, n => if n < b then 0 else natLogF b fuel (n / b) + 1

/-- `2 ^ e` as a rational, for an integer exponent. -/
def pw2 (e : ℤ) : ℚ :=
  if 0 ≤ e then ((2 ^ e.toNat : ℕ) : ℚ) else 1 / ((2 ^ (-e).toNat : ℕ) : ℚ)

/-- `10 ^ e` as a rational, for an integer exponent. -/
def pw10 (e : ℤ) : ℚ :=
  if 0 ≤ e then ((10 ^ e.toNat : ℕ) : ℚ) else 1 / ((10 ^ (-e).toNat : ℕ) : ℚ)

/-- Round a nonnegative rational to the nearest natural number, ties to even. -/
def rhePos (q : ℚ) : ℕ :=
  let n := q.num.toNat
  let d := q.den
  let quo := n / d
  let r := n % d
  if 2 * r < d then quo
  else if d < 2 * r then quo + 1
  else if quo % 2 = 0 then quo else quo + 1

/-- Floor of the base-2 logarithm of a positive rational. -/
def log2floorQ (q : ℚ) : ℤ :=
  let a := q.num.toNat
  let b := q.den
  let e0 : ℤ := (natLogF 2 a a : ℤ) - (natLogF 2 b b : ℤ)
  if pw2 e0 ≤ q then e0 else e0 - 1

/-- Round a positive rational to the nearest IEEE-754 binary64 value
(53 significant bits, round half to even), returned as the exact rational it
denotes.  Overflow and subnormals are outside the range this development
exercises and are not modelled. -/
def fpRoundPos (q : ℚ) : ℚ :=
  let e := log2floorQ q
  let m := rhePos (q * pw2 (52 - e))
  (m : ℚ) * pw2 (e - 52)

/-- Exact value of the IEEE-754 binary64 double nearest to `q`
(round half to even; normal range). -/
def fpRound (q : ℚ) : ℚ :=
  if q = 0 then 0 else if q < 0 then -fpRoundPos (-q) else fpRoundPos q

/-- Floor of the base-10 logarithm of a positive rational. -/
def decExpFloor (q : ℚ) : ℤ :=
  let n := q.num.toNat
  let d := q.den
  if d ≤ n then (natLogF 10 (n / d) (n / d) : ℤ)
  else
    let m := d / n
    let k0 := natLogF 10 m m
    if d ≤ n * 10 ^ k0 then -(k0 : ℤ) else -((k0 : ℤ) + 1)

/-- Round a positive rational to `d` significant decimal digits,
ties to even. -/
def roundSigPos (q : ℚ) (d : ℕ) : ℚ :=
  let e := decExpFloor q
  let shift : ℤ := (d : ℤ) - 1 - e
  ((rhePos (q * pw10 shift) : ℕ) : ℚ) * pw10 (-shift)

/-- Search for the shortest decimal (by significant digit count, starting at
`d`) whose nearest double is `a` again; CPython's `repr` of a float produces
exactly this decimal.  17 digits always suffice for genuine doubles. -/
def shortestFrom (a : ℚ) : ℕ → ℕ → ℚ
  | d, 0 => roundSigPos a d
  | d, fuel + 1 =>
    let c := roundSigPos a d
    if fpRound c = a then c else shortestFrom a (d + 1) fuel

/-- Exact rational value of `Decimal(str(x))` for a Python float `x` whose
exact value is `v`: the shortest decimal that round-trips through binary64. -/
def pyFloatToDec (v : ℚ) : ℚ :=
  if v = 0 then 0
  else if v < 0 then -(shortestFrom (-v) 1 17)
  else shortestFrom v 1 17

/-! ## Python numbers and JSON values

`json.loads` produces arbitrary-precision `int`s for integer literals and
binary64 `float`s for fractional literals; a float's exact rational value is
carried in the `float` constructor. -/

inductive PyNum where
  | int : ℤ → PyNum
  | float : ℚ → PyNum
deriving DecidableEq

/-- The exact rational value of a Python number. -/
def PyNum.toRat : PyNum → ℚ
  | .int n => (n : ℚ)
  | .float q => q

/-- Python multiplication on numbers: `int * int` is exact, any float operand
forces binary64 arithmetic (the exact product rounded to the nearest
double). -/
def pyMul : PyNum → PyNum → PyNum
  | .int a, .int b => .int (a * b)
  | a, b => .float (fpRound (a.toRat * b.toRat))

/-- Python addition on numbers, with the same int/float contagion rule. -/
def pyAdd : PyNum → PyNum → PyNum
  | .int a, .int b => .int (a + b)
  | a, b => .float (fpRound (a.toRat + b.toRat))

/-- Python's `sum(list)`: left fold of `pyAdd` starting from the int `0`. -/
def pySum (l : List PyNum) : PyNum := l.foldl pyAdd (.int 0)

/-- The value tree a Python handler manipulates after `json.loads`: JSON
values, plus `dec` for `decimal.Decimal` objects that `create_product` writes
into the parsed dict before storing it.  An `obj` models a Python dict built
by `json.loads`, so its keys are unique and lookups take the first match. -/
inductive JVal where
  | null : JVal
  | bool : Bool → JVal
  | num : PyNum → JVal
  | str : String → JVal
  | dec : ℚ → JVal
  | arr : List JVal → JVal
  | obj : List (String × JVal) → JVal

/-- DynamoDB attribute values as the boto3 resource layer returns them
(numbers are `decimal.Decimal`, modelled as exact rationals). -/
inductive AVal where
  | s : String → AVal
  | n : ℚ → AVal
  | bool : Bool → AVal
  | null : AVal
  | l : List AVal → AVal
  | m : List (String × AVal) → AVal

/-- A stored DynamoDB item: attribute name to attribute value. -/
abbrev DItem := List (String × AVal)

/-- The DynamoDB table state, keyed by the `product_id` key attribute. -/
abbrev DTable := List (String × DItem)

/-- First-match lookup in a parsed JSON object (Python dict lookup). -/
def lookJ (fs : List (String × JVal)) (k : String) : Option JVal :=
  match fs with
  | [] => none
  | (k', v) :: fs' => if k' = k then some v else lookJ fs' k

/-- `dict.get(k, d)`: lookup with a default. -/
def getJD (fs : List (String × JVal)) (k : String) (d : JVal) : JVal :=
  (lookJ fs k).getD d

/-- Replace the value stored at key `k` (first occurrence), as Python's
`body[k] = v` does for a key that is present. -/
def setJ (fs : List (String × JVal)) (k : String) (v : JVal) :
    List (String × JVal) :=
  match fs with
  | [] => []
  | (k', v') :: fs' => if k' = k then (k', v) :: fs' else (k', v') :: setJ fs' k v

/-- Attribute lookup in a stored item. -/
def attrLook (it : DItem) (k : String) : Option AVal :=
  match it with
  | [] => none
  | (k', v) :: it' => if k' = k then some v else attrLook it' k

/-- `SET k = v` on one item: overwrite the attribute if present, append it
otherwise. -/
def setAttr (it : DItem) (k : String) (v : AVal) : DItem :=
  match it with
  | [] => [(k, v)]
  | (k', v') :: it' => if k' = k then (k, v) :: it' else (k', v') :: setAttr it' k v

/-- Point lookup of an item by key. -/
def lookupItem (tbl : DTable) (pid : String) : Option DItem :=
  match tbl with
  | [] => none
  | (k, it) :: tbl' => if k = pid then some it else lookupItem tbl' pid

/-- `put_item`: full replacement of the item with the given key (upsert). -/
def putItem (tbl : DTable) (pid : String) (it : DItem) : DTable :=
  match tbl with
  | [] => [(pid, it)]
  | (k, it') :: tbl' =>
    if k = pid then (pid, it) :: tbl' else (k, it') :: putItem tbl' pid it

/-- `delete_item`: removal by key; deleting an absent key is a no-op. -/
def delItem (tbl : DTable) (pid : String) : DTable :=
  match tbl with
  | [] => []
  | (k, it) :: tbl' => if k = pid then tbl' else (k, it) :: delItem tbl' pid

mutual
/-- boto3 serialization of a Python value into a DynamoDB attribute value:
strings, bools, `None`, ints and `Decimal`s are accepted; floats are rejected
with a `TypeError` (`put_item` refuses Python floats). -/
def jvalToAVal : JVal → Except String AVal
  | .null => .ok .null
  | .bool b => .ok (.bool b)
  | .str s => .ok (.s s)
  | .num (.int n) => .ok (.n (n : ℚ))
  | .num (.float _) => .error "TypeError: Float types are not supported"
  | .dec q => .ok (.n q)
  | .arr xs =>
    match jvalLToA xs with
    | .ok l => .ok (.l l)
    | .error m => .error m
  | .obj fs =>
    match jvalOToA fs with
    | .ok l => .ok (.m l)
    | .error m => .error m
def jvalLToA : List JVal → Except String (List AVal)
  | [] => .ok []
  | x :: xs =>
    match jvalToAVal x with
    | .error m => .error m
    | .ok a =>
      match jvalLToA xs with
      | .error m => .error m
      | .ok l => .ok (a :: l)
def jvalOToA : List (String × JVal) → Except String (List (String × AVal))
  | [] => .ok []
  | (k, v) :: fs =>
    match jvalToAVal v with
    | .error m => .error m
    | .ok a =>
      match jvalOToA fs with
      | .error m => .error m
      | .ok l => .ok ((k, a) :: l)
end

mutual
/-- The JSON value `json.dumps(item, default=decimal_default)` emits for a
stored attribute value: `decimal_default` converts each `Decimal` to a float,
so numbers come back as the binary64 value nearest the stored decimal. -/
def avalToJVal : AVal → JVal
  | .s v => .str v
  | .n q => .num (.float (fpRound q))
  | .bool b => .bool b
  | .null => .null
  | .l xs => .arr (avalLToJ xs)
  | .m fs => .obj (avalOToJ fs)
def avalLToJ : List AVal → List JVal
  | [] => []
  | x :: xs => avalToJVal x :: avalLToJ xs
def avalOToJ : List (String × AVal) → List (String × JVal)
  | [] => []
  | (k, v) :: fs => (k, avalToJVal v) :: avalOToJ fs
end

/-- The response body serialization of a whole stored item. -/
def itemToJVal (it : DItem) : JVal := .obj (avalOToJ it)

/-! ## `Decimal(str(x))` -/

/-- Consume leading decimal digits from a character list, returning the
accumulated value, the digit count and the rest. -/
def takeDigits : List Char → ℕ → ℕ → ℕ × ℕ × List Char
  | [], acc, cnt => (acc, cnt, [])
  | c :: cs, acc, cnt =>
    if c.isDigit then takeDigits cs (acc * 10 + (c.toNat - 48)) (cnt + 1)
    else (acc, cnt, c :: cs)

/-- Parse the body of a decimal literal after the optional sign:
`digits [. digits] [(e|E) [sign] digits]`.  Returns `none` where
`decimal.Decimal` would raise `InvalidOperation`.  (The special values
`Infinity`/`NaN` are outside the modelled range.) -/
def parseDecCore (cs : List Char) : Option ℚ :=
  let (ip, ic, r1) := takeDigits cs 0 0
  let (fp, fc, r2) :=
    match r1 with
    | '.' :: cs' => takeDigits cs' 0 0
    | _ => (0, 0, r1)
  let r2' := match r1 with | '.' :: _ => r2 | _ => r1
  if ic + fc = 0 then none
  else
    let mant : ℚ := ((ip : ℚ) * (10 : ℚ) ^ fc + (fp : ℚ)) / (10 : ℚ) ^ fc
    match r2' with
    | [] => some mant
    | e :: cs' =>
      if e = 'e' ∨ e = 'E' then
        let (esign, cs'') :=
          match cs' with
          | '-' :: t => (true, t)
          | '+' :: t => (false, t)
          | t => (false, t)
        let (ev, ec, r3) := takeDigits cs'' 0 0
        if ec = 0 ∨ r3 ≠ [] then none
        else some (mant * pw10 (if esign then -(ev : ℤ) else (ev : ℤ)))
      else none

/-- `Decimal(s)` for a string `s` (without surrounding whitespace): exact
decimal value, or `none` where the constructor raises. -/
def parseDecStr (s : String) : Option ℚ :=
  match s.toList with
  | '-' :: cs => (parseDecCore cs).map Neg.neg
  | '+' :: cs => parseDecCore cs
  | cs => parseDecCore cs

/-- `Decimal(str(x))` as `create_product`/`update_product` apply it to a value
taken from the parsed request body: exact for ints, shortest round-tripping
decimal for floats, a decimal-literal parse for strings, and
`InvalidOperation`/`TypeError` (modelled as `.error`) for everything else
(`str()` of a bool, `None`, a list or a dict is not a decimal literal). -/
def decOfPy : JVal → Except String ℚ
  | .num (.int n) => .ok (n : ℚ)
  | .num (.float q) => .ok (pyFloatToDec q)
  | .dec q => .ok q
  | .str s =>
    match parseDecStr s with
    | some q => .ok q
    | none => .error "InvalidOperation"
  | _ => .error "InvalidOperation"

/-! ## Events, effect outcomes and responses -/

/-- The `event['pathParameters']` slot: absent key, JSON `null`, or a dict of
path parameters.  The first two make `event['pathParameters']['id']` raise. -/
inductive PPars where
  | missing : PPars
  | null : PPars
  | dict : List (String × String) → PPars

/-- The `event['body']` slot.  The handlers run `json.loads(event.get('body',
'\x7b\x7d'))`, so an absent body parses to the empty object and a malformed
body raises; `parsed v` stands for a body string whose JSON parse is `v`. -/
inductive BodyF where
  | missing : BodyF
  | failed : String → BodyF
  | parsed : JVal → BodyF

/-- An inbound request event. -/
structure Event where
  path : String
  httpMethod : String
  pPars : PPars
  bodyF : BodyF

/-- `event['pathParameters']['id']` as an exception-aware computation. -/
def getPathId : PPars → Except String String
  | .missing => .error "KeyError: pathParameters"
  | .null => .error "TypeError: NoneType is not subscriptable"
  | .dict fs =>
    match fs.lookup "id" with
    | some v => .ok v
    | none => .error "KeyError: id"

/-- `json.loads(event.get('body', '\x7b\x7d'))`. -/
def getBody : BodyF → Except String JVal
  | .missing => .ok (.obj [])
  | .failed m => .error m
  | .parsed v => .ok v

/-- Outcomes of the external-store calls made during one invocation: `none`
means the call succeeds, `some msg` that it raises with that message.
`lastrowid` is the auto-increment id the Orders insert produces, and
`itemFault` makes the line-item insert at the given index raise. -/
structure World where
  scanFault : Option String
  getFault : Option String
  putFault : Option String
  updFault : Option String
  delFault : Option String
  connFault : Option String
  lastrowid : ℤ
  orderFault : Option String
  itemFault : Option (ℕ × String)
  commitFault : Option String

/-- The status-code/body envelope every handler returns. -/
structure Resp where
  statusCode : ℕ
  body : JVal

/-- The 500 envelope the handlers build in their `except` blocks:
`'error'` summary plus `'details': str(e)`. -/
def err500 (summary details : String) : Resp :=
  ⟨500, .obj [("error", .str summary), ("details", .str details)]⟩

/-! ## Catalog handlers (DynamoDB) -/

/-- `list_products`: scan the table and serialize the items, or catch any
fault as a 500.  (The single-page truncation of `scan` is not modelled; the
claims do not touch it.) -/
def list_products (w : World) (tbl : DTable) : Resp :=
  match w.scanFault with
  | some m => err500 "Failed to list products" m
  | none => ⟨200, .arr (tbl.map (fun e => itemToJVal e.2))⟩

/-- `get_product`: id extraction, point lookup, 404 on absence, 500 on any
raised exception. -/
def get_product (ev : Event) (w : World) (tbl : DTable) : Resp :=
  match getPathId ev.pPars with
  | .error m => err500 "Failed to get product" m
  | .ok pid =>
    match w.getFault with
    | some m => err500 "Failed to get product" m
    | none =>
      match lookupItem tbl pid with
      | none => ⟨404, .obj [("error", .str "Product not found")]⟩
      | some it => ⟨200, itemToJVal it⟩

/-- `if k in body: body[k] = Decimal(str(body[k]))` — the in-place coercion
`create_product` applies to `price` and `stock`. -/
def coercePS (fs : List (String × JVal)) (k : String) :
    Except String (List (String × JVal)) :=
  match lookJ fs k with
  | none => .ok fs
  | some v =>
    match decOfPy v with
    | .ok d => .ok (setJ fs k (.dec d))
    | .error m => .error m

/-- The `put_item` call of `create_product`: serialize the dict, check the
string `product_id` key attribute, write. -/
def putBody (w : World) (tbl : DTable) (fs : List (String × JVal)) :
    Except String DTable :=
  match jvalOToA fs with
  | .error m => .error m
  | .ok itm =>
    match attrLook itm "product_id" with
    | some (.s pid) =>
      match w.putFault with
      | some m => .error m
      | none => .ok (putItem tbl pid itm)
    | some _ => .error "ValidationException: key type mismatch"
    | none => .error "ValidationException: missing key product_id"

/-- The `try` block of `create_product`: parse the body, coerce `price` and
`stock` to `Decimal(str(...))` when present, then `put_item(Item=body)`
(which requires a string `product_id` key attribute).  Returns the new table
or the exception message. -/
def create_core (ev : Event) (w : World) (tbl : DTable) : Except String DTable :=
  match getBody ev.bodyF with
  | .error m => .error m
  | .ok (.obj fs) =>
    match coercePS fs "price" with
    | .error m => .error m
    | .ok fs1 =>
      match coercePS fs1 "stock" with
      | .error m => .error m
      | .ok fs2 => putBody w tbl fs2
  | .ok _ => .error "TypeError: body is not a dict"

/-- `create_product`: the `try` block above with every exception converted to
the 500 envelope; on success a 200 acknowledgement. -/
def create_product (ev : Event) (w : World) (tbl : DTable) : Resp × DTable :=
  match create_core ev w tbl with
  | .ok tbl' => (⟨200, .obj [("message", .str "Product created successfully")]⟩, tbl')
  | .error m => (err500 "Failed to create product" m, tbl)

/-- `update_item` with `SET #n=:n, price=:p, stock=:s`: overwrite the three
attributes of the stored item, or create the item (key plus the three
attributes) when the key is absent — DynamoDB `UpdateItem` upserts. -/
def updItem (tbl : DTable) (pid : String) (nm p s : AVal) : DTable :=
  match lookupItem tbl pid with
  | some it =>
    putItem tbl pid (setAttr (setAttr (setAttr it "name" nm) "price" p) "stock" s)
  | none =>
    putItem tbl pid [("product_id", .s pid), ("name", nm), ("price", p), ("stock", s)]

/-- The tail of `update_product`'s `try` block, after `product_id` was bound:
parse the body, compute `Decimal(str(body.get('price', 0)))` and the stock
analogue, take `body.get('name', '')`, then `update_item`. -/
def update_core (ev : Event) (w : World) (tbl : DTable) (pid : String) :
    Except String DTable :=
  match getBody ev.bodyF with
  | .error m => .error m
  | .ok (.obj fs) =>
    match decOfPy (getJD fs "price" (.num (.int 0))) with
    | .error m => .error m
    | .ok p =>
      match decOfPy (getJD fs "stock" (.num (.int 0))) with
      | .error m => .error m
      | .ok s =>
        match jvalToAVal (getJD fs "name" (.str "")) with
        | .error m => .error m
        | .ok nmA =>
          match w.updFault with
          | some m => .error m
          | none => .ok (updItem tbl pid nmA (.n p) (.n s))
  | .ok _ => .error "AttributeError: no attribute get"

/-- `update_product`.  When the very first line of the `try` block —
`product_id = event['pathParameters']['id']` — raises, the `except` block's
logging line references the still-unbound local `product_id` and itself
raises; that exception is not caught and escapes the handler (the `.error`
result).  Every later failure is caught and becomes the 500 envelope. -/
def update_product (ev : Event) (w : World) (tbl : DTable) :
    Except String Resp × DTable :=
  match getPathId ev.pPars with
  | .error _ =>
    (.error "UnboundLocalError: local variable product_id referenced before assignment",
      tbl)
  | .ok pid =>
    match update_core ev w tbl pid with
    | .ok tbl' =>
      (.ok ⟨200, .obj [("message", .str "Product updated successfully")]⟩, tbl')
    | .error m => (.ok (err500 "Failed to update product" m), tbl)

/-- `delete_product`, with the same unbound-`product_id` logging slip in its
`except` block as `update_product`. -/
def delete_product (ev : Event) (w : World) (tbl : DTable) :
    Except String Resp × DTable :=
  match getPathId ev.pPars with
  | .error _ =>
    (.error "UnboundLocalError: local variable product_id referenced before assignment",
      tbl)
  | .ok pid =>
    match w.delFault with
    | some m => (.ok (err500 "Failed to delete product" m), tbl)
    | none =>
      (.ok ⟨200, .obj [("message", .str "Product deleted successfully")]⟩,
        delItem tbl pid)

/-! ## Checkout handler (RDS) -/

/-- A row written through `cursor.execute`: the single Orders insert or one
OrderItems insert. -/
inductive SqlInsert where
  | order : JVal → PyNum → SqlInsert
  | orderItem : ℤ → JVal → JVal → JVal → SqlInsert

/-- One term of the list comprehension
`[i['price'] * i['quantity'] for i in items]`: two dict lookups and a Python
multiplication.  A non-number operand either raises there or (for `str *
int`) at the subsequent `sum`; both surface as the same caught exception, so
the model reports the error directly. -/
def itemProd (x : JVal) : Except String PyNum :=
  match x with
  | .obj fs =>
    match lookJ fs "price" with
    | none => .error "KeyError: price"
    | some pv =>
      match lookJ fs "quantity" with
      | none => .error "KeyError: quantity"
      | some qv =>
        match pv, qv with
        | .num a, .num b => .ok (pyMul a b)
        | _, _ => .error "TypeError: unsupported operand"
  | _ => .error "TypeError: not subscriptable"

/-- The parameters of one OrderItems insert:
`(order_id, item['product_id'], item['quantity'], item['price'])`. -/
def itemRow (oid : ℤ) (x : JVal) : Except String SqlInsert :=
  match x with
  | .obj fs =>
    match lookJ fs "product_id", lookJ fs "quantity", lookJ fs "price" with
    | some pid, some q, some p => .ok (.orderItem oid pid q p)
    | _, _, _ => .error "KeyError"
  | _ => .error "TypeError: not subscriptable"

/-- The OrderItems insert loop: rows already executed are recorded even when a
later step raises (they are uncommitted — the commit flag tracks that); the
loop stops at the first parameter-extraction failure or injected execute
fault. -/
def insertItems (oid : ℤ) (fault : Option (ℕ × String)) :
    List JVal → ℕ → List SqlInsert × Option String
  | [], _ => ([], none)
  | x :: xs, j =>
    match itemRow oid x with
    | .error m => ([], some m)
    | .ok row =>
      match fault with
      | some (k, m) =>
        if k = j then ([], some m)
        else
          let r := insertItems oid (some (k, m)) xs (j + 1)
          (row :: r.1, r.2)
      | none =>
        let r := insertItems oid none xs (j + 1)
        (row :: r.1, r.2)

/-- The list comprehension `[i['price'] * i['quantity'] for i in items]`:
evaluated left to right, stopping at the first raised exception. -/
def mapProds : List JVal → Except String (List PyNum)
  | [] => .ok []
  | x :: xs =>
    match itemProd x with
    | .error m => .error m
    | .ok p =>
      match mapProds xs with
      | .error m => .error m
      | .ok l => .ok (p :: l)

/-- The leading part of `checkout`'s `try` block: parse the body and read the
required `user_id` and `items` fields. -/
def checkoutPre (ev : Event) : Except String (JVal × List JVal) :=
  match getBody ev.bodyF with
  | .error m => .error m
  | .ok (.obj fs) =>
    match lookJ fs "user_id" with
    | none => .error "KeyError: user_id"
    | some u =>
      match lookJ fs "items" with
      | some (.arr l) => .ok (u, l)
      | some _ => .error "TypeError: not iterable"
      | none => .error "KeyError: items"
  | .ok _ => .error "TypeError: not subscriptable"

/-- The whole `try` block of `checkout`: compute the total, connect, insert
the Orders row, insert the OrderItems rows in input order, commit.  Returns
the outcome together with the rows whose `execute` ran and whether `commit`
succeeded; the connection is closed on every path (no explicit rollback). -/
def checkoutRun (ev : Event) (w : World) :
    Except String ℤ × List SqlInsert × Bool :=
  match checkoutPre ev with
  | .error m => (.error m, [], false)
  | .ok (u, its) =>
    match mapProds its with
    | .error m => (.error m, [], false)
    | .ok prods =>
      let total := pySum prods
      match w.connFault with
      | some m => (.error m, [], false)
      | none =>
        match w.orderFault with
        | some m => (.error m, [], false)
        | none =>
          let oid := w.lastrowid
          let r := insertItems oid w.itemFault its 0
          let rows := SqlInsert.order u total :: r.1
          match r.2 with
          | some m => (.error m, rows, false)
          | none =>
            match w.commitFault with
            | some m => (.error m, rows, false)
            | none => (.ok oid, rows, true)

/-- `checkout`: the `try` block with every exception caught into the 500
envelope; on success a 200 with the generated `order_id`. -/
def checkout (ev : Event) (w : World) : Resp × List SqlInsert × Bool :=
  match checkoutRun ev w with
  | (.ok oid, rows, com) =>
    (⟨200, .obj [("order_id", .num (.int oid)), ("message", .str "Checkout successful")]⟩,
      rows, com)
  | (.error m, rows, com) => (err500 "Checkout failed" m, rows, com)

/-! ## Router -/

/-- `path.startswith(pre)`. -/
def strStartsL : List Char → List Char → Bool
  | [], _ => true
  | _ :: _, [] => false
  | a :: as, b :: bs => a = b && strStartsL as bs

/-- `path.startswith(pre)` on strings. -/
def strStarts (pre s : String) : Bool := strStartsL pre.toList s.toList

/-- Everything one `lambda_handler` invocation produced: the returned envelope
(or the exception that escaped), the DynamoDB table afterwards, the SQL
inserts that executed and whether they were committed. -/
structure LOut where
  result : Except String Resp
  tbl : DTable
  sql : List SqlInsert
  committed : Bool

/-- The router: five path/method matches plus `/checkout`, with a fixed 400
fallback for every unmatched combination. -/
def lambda_handler (ev : Event) (w : World) (tbl : DTable) : LOut :=
  if ev.path = "/products" ∧ ev.httpMethod = "GET" then
    ⟨.ok (list_products w tbl), tbl, [], false⟩
  else if strStarts "/products/" ev.path ∧ ev.httpMethod = "GET" then
    ⟨.ok (get_product ev w tbl), tbl, [], false⟩
  else if ev.path = "/products" ∧ ev.httpMethod = "POST" then
    let r := create_product ev w tbl
    ⟨.ok r.1, r.2, [], false⟩
  else if strStarts "/products/" ev.path ∧ ev.httpMethod = "PUT" then
    let r := update_product ev w tbl
    ⟨r.1, r.2, [], false⟩
  else if strStarts "/products/" ev.path ∧ ev.httpMethod = "DELETE" then
    let r := delete_product ev w tbl
    ⟨r.1, r.2, [], false⟩
  else if ev.path = "/checkout" ∧ ev.httpMethod = "POST" then
    let r := checkout ev w
    ⟨.ok r.1, tbl, r.2.1, r.2.2⟩
  else
    ⟨.ok ⟨400, .obj [("error", .str "Invalid route or method")]⟩, tbl, [], false⟩

/-! ## Credential cache (SSM) -/

/-- The two module-level cache globals `_cached_rds_user` /
`_cached_rds_password`. -/
structure CredCache where
  user : Option String
  password : Option String

/-- Python truthiness of `not cached_value`: `None` and the empty string are
falsy. -/
def falsyOpt : Option String → Bool
  | none => true
  | some s => s = ""

/-- `get_db_credentials`, with the SSM client abstracted as a fetch function
from parameter name to decrypted value.  Returns the credential pair, the
cache state afterwards, and the list of parameter names actually fetched
remotely in this call. -/
def get_db_credentials (fetch : String → String) (c : CredCache) :
    (String × String) × CredCache × List String :=
  let r1 :=
    if falsyOpt c.user then
      let v := fetch "/ubuntucrafts/db_username"
      (v, { c with user := some v }, ["/ubuntucrafts/db_username"])
    else (c.user.getD "", c, [])
  let c1 := r1.2.1
  let r2 :=
    if falsyOpt c1.password then
      let v := fetch "/ubuntucrafts/db_password"
      (v, { c1 with password := some v }, ["/ubuntucrafts/db_password"])
    else (c1.password.getD "", c1, [])
  ((r1.1, r2.1), r2.2.1, r1.2.2 ++ r2.2.2)


/-! ## Fixtures -/

/-- An effect world in which every external call succeeds; the Orders insert
reports `lastrowid = 7`. -/
def okWorld : World := ⟨none, none, none, none, none, none, 7, none, none, none⟩

/-- A world whose `get_item` call raises with message `"boom"`. -/
def getFaultWorld : World :=
  ⟨none, some "boom", none, none, none, none, 7, none, none, none⟩



/-! ## Verification-side descriptions

The definitions below do not embed source code; they name the shapes the
claims quantify over and the per-field images the proofs compare against. -/

/-- A canonical well-formed cart item `(product_id, quantity, price)` as the
checkout claims quantify over it. -/
def mkCartItem (t : JVal × PyNum × PyNum) : JVal :=
  .obj [("product_id", t.1), ("quantity", .num t.2.1), ("price", .num t.2.2)]

/-- The checkout request of the C1 counterexample, as `json.loads` parses it:
`user_id: "u1"`, one item with `quantity: 3` and `price: 0.1` — the literal
`0.1` parses to the binary64 double nearest `1/10`. -/
def cexCheckoutEvent : Event :=
  ⟨"/checkout", "POST", .missing,
    .parsed (.obj [("user_id", .str "u1"),
      ("items", .arr [.obj [("product_id", .str "p1"),
        ("quantity", .num (.int 3)),
        ("price", .num (.float (fpRound (1 / 10))))]])])⟩

/-- Whether a JSON value is an object carrying the given key. -/
def hasKeyB (v : JVal) (k : String) : Bool :=
  match v with
  | .obj fs => (lookJ fs k).isSome
  | _ => false

/-- The attribute value a valid product field is stored as (proof-side
description; floats only reach storage at `price`/`stock`, where
`create_product` has already replaced them by `Decimal(str(...))`). -/
def storeVal : JVal → AVal
  | .str s => .s s
  | .bool b => .bool b
  | .null => .null
  | .num (.int n) => .n (n : ℚ)
  | .num (.float q) => .n (pyFloatToDec q)
  | .dec q => .n q
  | .arr _ => .null
  | .obj _ => .null

/-- The round-tripped image of a payload field: numbers come back as floats
of the same numeric value, everything else unchanged. -/
def rtVal : JVal → JVal
  | .num x => .num (.float x.toRat)
  | v => v

/-- Numeric-value-insensitive equality on JSON leaves: numbers compare by
their rational value, everything else by structure. -/
def numEqJ : JVal → JVal → Prop
  | .num x, .num y => x.toRat = y.toRat
  | a, b => a = b

/-- A non-numeric field value that DynamoDB stores and returns verbatim. -/
def plainOK (v : JVal) : Prop :=
  (∃ s, v = .str s) ∨ (∃ b, v = .bool b) ∨ v = .null

/-- An integer field value that survives the float serialization exactly. -/
def intOK (v : JVal) : Prop :=
  ∃ n : ℤ, v = .num (.int n) ∧ fpRound (n : ℚ) = (n : ℚ)

/-- A float field value whose `Decimal(str(...))` image rounds back to it —
the CPython shortest-repr round-trip guarantee, stated per value so a witness
can check it by computation. -/
def floatOK (v : JVal) : Prop :=
  ∃ q : ℚ, v = .num (.float q) ∧ fpRound (pyFloatToDec q) = q

/-- Validity of one field of a C3 product payload: `price`/`stock` must be
numeric (ints or round-trippable floats); other fields are plain values or
ints (floats elsewhere would make `put_item` raise). -/
def fieldOK (k : String) (v : JVal) : Prop :=
  if k = "price" ∨ k = "stock" then intOK v ∨ floatOK v else plainOK v ∨ intOK v

/-- A value `Decimal(str(·))` maps to a decimal with the same stored image. -/
def decOK (v : JVal) : Prop :=
  ∃ d, decOfPy v = .ok d ∧ storeVal (.dec d) = storeVal v

/-- A value boto3 serializes exactly to its `storeVal` image. -/
def convStore (v : JVal) : Prop :=
  jvalToAVal v = .ok (storeVal v)


/-! ## Sanity evaluations of the numeric model -/

unseal Rat.mul Rat.add Rat.sub Rat.inv in
theorem sanity_fpRound_tenth : fpRound (1 / 10) = 3602879701896397 / 2 ^ 55 := by
  decide

unseal Rat.mul Rat.add Rat.sub Rat.inv in
theorem sanity_fpRound_999c : fpRound (999 / 100) = 5623870034678907 / 2 ^ 49 := by
  decide

unseal Rat.mul Rat.add Rat.sub Rat.inv in
theorem sanity_shortest_roundtrip : pyFloatToDec (fpRound (999 / 100)) = 999 / 100 := by
  decide

unseal Rat.mul Rat.add Rat.sub Rat.inv in
theorem sanity_parse_decimal : parseDecStr "9.99" = some (999 / 100) := by
  decide

/-! ## C2 -/

/-- C2: the claim that every handler catches all failures at its own boundary
and that `lambda_handler` always returns an envelope fails on the code.  A
`PUT /products/x` event whose `pathParameters` is `null` makes
`event['pathParameters']['id']` raise; `update_product`'s `except` block then
evaluates `f"Error updating product {product_id}: ..."` with `product_id`
still unbound, raising `UnboundLocalError`, which nothing catches — the
exception escapes the router instead of becoming a 500 envelope. -/
theorem c2_handler_exception_escapes_router :
    (lambda_handler ⟨"/products/x", "PUT", .null, .missing⟩ okWorld []).result =
      .error "UnboundLocalError: local variable product_id referenced before assignment" :=
  rfl

/-! ## C5 -/

/-- C5: every `(path, method)` pair matching none of the six routed cases gets
the fixed 400 response with body `error: Invalid route or method`; unknown
path and wrong method are not distinguished. -/
theorem c5_unmatched_routes_get_fixed_400 (ev : Event) (w : World) (tbl : DTable)
    (h1 : ¬(ev.path = "/products" ∧ ev.httpMethod = "GET"))
    (h2 : ¬(strStarts "/products/" ev.path = true ∧ ev.httpMethod = "GET"))
    (h3 : ¬(ev.path = "/products" ∧ ev.httpMethod = "POST"))
    (h4 : ¬(strStarts "/products/" ev.path = true ∧ ev.httpMethod = "PUT"))
    (h5 : ¬(strStarts "/products/" ev.path = true ∧ ev.httpMethod = "DELETE"))
    (h6 : ¬(ev.path = "/checkout" ∧ ev.httpMethod = "POST")) :
    lambda_handler ev w tbl =
      ⟨.ok ⟨400, .obj [("error", .str "Invalid route or method")]⟩, tbl, [], false⟩ := by
  simp [lambda_handler, h1, h2, h3, h4, h5, h6]

/-- Witness for C5 at `("/unknown", "GET")` and `("/products", "PATCH")`. -/
theorem c5_unmatched_routes_get_fixed_400_witness :
    lambda_handler ⟨"/unknown", "GET", .missing, .missing⟩ okWorld [] =
      ⟨.ok ⟨400, .obj [("error", .str "Invalid route or method")]⟩, [], [], false⟩ ∧
    lambda_handler ⟨"/products", "PATCH", .missing, .missing⟩ okWorld [] =
      ⟨.ok ⟨400, .obj [("error", .str "Invalid route or method")]⟩, [], [], false⟩ :=
  ⟨c5_unmatched_routes_get_fixed_400 _ _ _ (by decide) (by decide) (by decide)
      (by decide) (by decide) (by decide),
    c5_unmatched_routes_get_fixed_400 _ _ _ (by decide) (by decide) (by decide)
      (by decide) (by decide) (by decide)⟩

/-! ## C7 -/

/-- C7: once the id is extracted, a `get_product` lookup that finds nothing is
the distinct 404 outcome with body `error: Product not found`, while a
provider fault during the lookup is a 500 envelope. -/
theorem c7_get_absent_is_404_fault_is_500 (ev : Event) (w : World) (tbl : DTable)
    (pid : String) (hid : getPathId ev.pPars = .ok pid) :
    (w.getFault = none → lookupItem tbl pid = none →
      get_product ev w tbl = ⟨404, .obj [("error", .str "Product not found")]⟩) ∧
    (∀ m, w.getFault = some m →
      get_product ev w tbl = err500 "Failed to get product" m) := by
  constructor
  · intro hf hl
    simp [get_product, hid, hf, hl]
  · intro m hf
    simp [get_product, hid, hf]

/-- Witness for C7: an id absent from the empty table yields the 404 body; a
faulting lookup yields the 500 envelope. -/
theorem c7_get_absent_is_404_fault_is_500_witness :
    get_product ⟨"/products/zzz", "GET", .dict [("id", "zzz")], .missing⟩ okWorld [] =
      ⟨404, .obj [("error", .str "Product not found")]⟩ ∧
    get_product ⟨"/products/zzz", "GET", .dict [("id", "zzz")], .missing⟩ getFaultWorld [] =
      err500 "Failed to get product" "boom" :=
  ⟨(c7_get_absent_is_404_fault_is_500
      ⟨"/products/zzz", "GET", .dict [("id", "zzz")], .missing⟩ okWorld [] "zzz" rfl).1
      rfl rfl,
    (c7_get_absent_is_404_fault_is_500
      ⟨"/products/zzz", "GET", .dict [("id", "zzz")], .missing⟩ getFaultWorld [] "zzz" rfl).2
      "boom" rfl⟩

/-! ## C9 -/

/-- C9: from an empty cache, `get_db_credentials` fetches both secrets once
and caches them; called again on the resulting cache (the fetched values
being non-empty) it returns the same pair, leaves the cache unchanged and
fetches nothing — resolving twice equals resolving once. -/
theorem c9_credential_cache_fetches_once (fetch : String → String)
    (hu : fetch "/ubuntucrafts/db_username" ≠ "")
    (hp : fetch "/ubuntucrafts/db_password" ≠ "") :
    get_db_credentials fetch ⟨none, none⟩ =
      ((fetch "/ubuntucrafts/db_username", fetch "/ubuntucrafts/db_password"),
        ⟨some (fetch "/ubuntucrafts/db_username"),
          some (fetch "/ubuntucrafts/db_password")⟩,
        ["/ubuntucrafts/db_username", "/ubuntucrafts/db_password"]) ∧
    get_db_credentials fetch
        ⟨some (fetch "/ubuntucrafts/db_username"),
          some (fetch "/ubuntucrafts/db_password")⟩ =
      ((fetch "/ubuntucrafts/db_username", fetch "/ubuntucrafts/db_password"),
        ⟨some (fetch "/ubuntucrafts/db_username"),
          some (fetch "/ubuntucrafts/db_password")⟩,
        []) := by
  constructor
  · simp [get_db_credentials, falsyOpt]
  · simp [get_db_credentials, falsyOpt, hu, hp]

/-- Witness for C9 with a concrete fetch function. -/
theorem c9_credential_cache_fetches_once_witness :
    get_db_credentials (fun n => n) ⟨none, none⟩ =
      (("/ubuntucrafts/db_username", "/ubuntucrafts/db_password"),
        ⟨some "/ubuntucrafts/db_username", some "/ubuntucrafts/db_password"⟩,
        ["/ubuntucrafts/db_username", "/ubuntucrafts/db_password"]) ∧
    get_db_credentials (fun n => n)
        ⟨some "/ubuntucrafts/db_username", some "/ubuntucrafts/db_password"⟩ =
      (("/ubuntucrafts/db_username", "/ubuntucrafts/db_password"),
        ⟨some "/ubuntucrafts/db_username", some "/ubuntucrafts/db_password"⟩,
        []) :=
  c9_credential_cache_fetches_once (fun n => n) (by decide) (by decide)

/-! ## C10 -/

/-- C10: a checkout whose body has `user_id` and an empty `items` list, with
the connection and the inserts succeeding, returns 200 with the generated
`order_id` in the body, inserts exactly one Orders row with `total_amount`
`0` and no OrderItems rows, and commits. -/
theorem c10_checkout_empty_cart (ev : Event) (w : World) (u : JVal)
    (fs : List (String × JVal))
    (hb : ev.bodyF = .parsed (.obj fs))
    (hu : lookJ fs "user_id" = some u)
    (hi : lookJ fs "items" = some (.arr []))
    (hc : w.connFault = none) (ho : w.orderFault = none)
    (hm : w.commitFault = none) :
    checkout ev w =
      (⟨200, .obj [("order_id", .num (.int w.lastrowid)),
          ("message", .str "Checkout successful")]⟩,
        [.order u (.int 0)], true) := by
  simp [checkout, checkoutRun, checkoutPre, getBody, hb, hu, hi, hc, ho, hm,
    mapProds, pySum, insertItems]

/-- Witness for C10 at a concrete empty-cart event. -/
theorem c10_checkout_empty_cart_witness :
    checkout ⟨"/checkout", "POST", .missing,
        .parsed (.obj [("user_id", .str "u9"), ("items", .arr [])])⟩ okWorld =
      (⟨200, .obj [("order_id", .num (.int 7)),
          ("message", .str "Checkout successful")]⟩,
        [.order (.str "u9") (.int 0)], true) :=
  c10_checkout_empty_cart _ okWorld (.str "u9") _ rfl rfl rfl rfl rfl rfl

/-! ## C6 -/

/-- A path with the prefix `/products/` is strictly longer than `/products`,
so the exact-match branches cannot fire for it. -/
theorem strStarts_ne_products (p : String)
    (h : strStarts "/products/" p = true) : p ≠ "/products" := by
  intro hp
  subst hp
  exact absurd h (by decide)

/-- C6: every path beginning with `/products/` (whatever the remainder, the
empty one included) dispatches GET to `get_product`, PUT to `update_product`
and DELETE to `delete_product`; the bare path `/products` never reaches an
item-scoped handler — it is served by `list_products`, `create_product` or
the 400 fallback. -/
theorem c6_item_routes_use_prefix_match (ev : Event) (w : World) (tbl : DTable) :
    (strStarts "/products/" ev.path = true →
      (ev.httpMethod = "GET" →
        lambda_handler ev w tbl = ⟨.ok (get_product ev w tbl), tbl, [], false⟩) ∧
      (ev.httpMethod = "PUT" →
        lambda_handler ev w tbl =
          ⟨(update_product ev w tbl).1, (update_product ev w tbl).2, [], false⟩) ∧
      (ev.httpMethod = "DELETE" →
        lambda_handler ev w tbl =
          ⟨(delete_product ev w tbl).1, (delete_product ev w tbl).2, [], false⟩)) ∧
    (ev.path = "/products" →
      lambda_handler ev w tbl = ⟨.ok (list_products w tbl), tbl, [], false⟩ ∨
      lambda_handler ev w tbl =
        ⟨.ok (create_product ev w tbl).1, (create_product ev w tbl).2, [], false⟩ ∨
      lambda_handler ev w tbl =
        ⟨.ok ⟨400, .obj [("error", .str "Invalid route or method")]⟩, tbl, [], false⟩) := by
  constructor
  · intro h
    have hne : ev.path ≠ "/products" := strStarts_ne_products ev.path h
    refine ⟨?_, ?_, ?_⟩ <;> intro hm <;> simp [lambda_handler, h, hm, hne]
  · intro hp
    have hpre : strStarts "/products/" "/products" = false := by decide
    by_cases hg : ev.httpMethod = "GET"
    · left; simp [lambda_handler, hp, hg]
    · by_cases hpo : ev.httpMethod = "POST"
      · right; left; simp [lambda_handler, hp, hpo, hpre, hg]
      · right; right; simp [lambda_handler, hp, hpre, hg, hpo]

/-- Witness for C6: `/products/abc123` and the empty-remainder `/products/`
both dispatch to `get_product`; the bare `/products` with PATCH lands in the
fallback disjunction. -/
theorem c6_item_routes_use_prefix_match_witness :
    (lambda_handler ⟨"/products/abc123", "GET", .dict [("id", "abc123")], .missing⟩
        okWorld [] =
      ⟨.ok (get_product ⟨"/products/abc123", "GET", .dict [("id", "abc123")], .missing⟩
        okWorld []), [], [], false⟩) ∧
    (lambda_handler ⟨"/products/", "GET", .dict [], .missing⟩ okWorld [] =
      ⟨.ok (get_product ⟨"/products/", "GET", .dict [], .missing⟩ okWorld []),
        [], [], false⟩) ∧
    (lambda_handler ⟨"/products", "PATCH", .missing, .missing⟩ okWorld [] =
        ⟨.ok (list_products okWorld []), [], [], false⟩ ∨
      lambda_handler ⟨"/products", "PATCH", .missing, .missing⟩ okWorld [] =
        ⟨.ok (create_product ⟨"/products", "PATCH", .missing, .missing⟩ okWorld []).1,
          (create_product ⟨"/products", "PATCH", .missing, .missing⟩ okWorld []).2,
          [], false⟩ ∨
      lambda_handler ⟨"/products", "PATCH", .missing, .missing⟩ okWorld [] =
        ⟨.ok ⟨400, .obj [("error", .str "Invalid route or method")]⟩, [], [], false⟩) :=
  ⟨((c6_item_routes_use_prefix_match
      ⟨"/products/abc123", "GET", .dict [("id", "abc123")], .missing⟩ okWorld []).1
      (by decide)).1 rfl,
    ((c6_item_routes_use_prefix_match
      ⟨"/products/", "GET", .dict [], .missing⟩ okWorld []).1 (by decide)).1 rfl,
    (c6_item_routes_use_prefix_match
      ⟨"/products", "PATCH", .missing, .missing⟩ okWorld []).2 rfl⟩

/-! ## C1 -/

theorem itemProd_mkCartItem (t : JVal × PyNum × PyNum) :
    itemProd (mkCartItem t) = .ok (pyMul t.2.2 t.2.1) := by
  simp [itemProd, mkCartItem, lookJ]

theorem mapProds_mkCartItem (l : List (JVal × PyNum × PyNum)) :
    mapProds (l.map mkCartItem) = .ok (l.map fun t => pyMul t.2.2 t.2.1) := by
  induction l with
  | nil => simp [mapProds]
  | cons t l ih => simp [mapProds, itemProd_mkCartItem, ih]

theorem itemRow_mkCartItem (oid : ℤ) (t : JVal × PyNum × PyNum) :
    itemRow oid (mkCartItem t) =
      .ok (.orderItem oid t.1 (.num t.2.1) (.num t.2.2)) := by
  simp [itemRow, mkCartItem, lookJ]

theorem insertItems_mkCartItem (oid : ℤ) (l : List (JVal × PyNum × PyNum))
    (j : ℕ) :
    insertItems oid none (l.map mkCartItem) j =
      (l.map fun t => .orderItem oid t.1 (.num t.2.1) (.num t.2.2), none) := by
  induction l generalizing j with
  | nil => simp [insertItems]
  | cons t l ih => simp [insertItems, itemRow_mkCartItem, ih]

/-- C1 (amended): a checkout with `user_id` and `N` well-formed items, all
external calls succeeding, inserts exactly one Orders row followed by the `N`
OrderItems rows in input order and commits; the inserted `total_amount` is
`Σ price_i * quantity_i` computed with Python's number semantics on the
JSON-parsed values — binary64 floating point as soon as any operand is a
float (`pySum`/`pyMul`), not exact-decimal arithmetic. -/
theorem c1_checkout_inserts_one_order_n_items (ev : Event) (w : World) (u : JVal)
    (its : List (JVal × PyNum × PyNum)) (fs : List (String × JVal))
    (hb : ev.bodyF = .parsed (.obj fs))
    (hu : lookJ fs "user_id" = some u)
    (hi : lookJ fs "items" = some (.arr (its.map mkCartItem)))
    (hc : w.connFault = none) (ho : w.orderFault = none)
    (hif : w.itemFault = none) (hm : w.commitFault = none) :
    checkout ev w =
      (⟨200, .obj [("order_id", .num (.int w.lastrowid)),
          ("message", .str "Checkout successful")]⟩,
        .order u (pySum (its.map fun t => pyMul t.2.2 t.2.1)) ::
          its.map (fun t => .orderItem w.lastrowid t.1 (.num t.2.1) (.num t.2.2)),
        true) ∧
    (checkout ev w).2.1.length = its.length + 1 := by
  have h : checkout ev w =
      (⟨200, .obj [("order_id", .num (.int w.lastrowid)),
          ("message", .str "Checkout successful")]⟩,
        .order u (pySum (its.map fun t => pyMul t.2.2 t.2.1)) ::
          its.map (fun t => .orderItem w.lastrowid t.1 (.num t.2.1) (.num t.2.2)),
        true) := by
    simp [checkout, checkoutRun, checkoutPre, getBody, hb, hu, hi, hc, ho, hif, hm,
      mapProds_mkCartItem, insertItems_mkCartItem]
  refine ⟨h, ?_⟩
  rw [h]
  simp

/-- Witness for the amended C1: a two-item cart with integer prices inserts
one Orders row (total 13) and two OrderItems rows in input order. -/
theorem c1_checkout_inserts_one_order_n_items_witness :
    checkout
        ⟨"/checkout", "POST", .missing,
          .parsed (.obj [("user_id", .str "u1"),
            ("items", .arr ([((.str "a" : JVal), (.int 2 : PyNum), (.int 5 : PyNum)),
              ((.str "b" : JVal), (.int 1 : PyNum), (.int 3 : PyNum))].map mkCartItem))])⟩
        okWorld =
      (⟨200, .obj [("order_id", .num (.int 7)),
          ("message", .str "Checkout successful")]⟩,
        .order (.str "u1")
            (pySum ([((.str "a" : JVal), (.int 2 : PyNum), (.int 5 : PyNum)),
              ((.str "b" : JVal), (.int 1 : PyNum), (.int 3 : PyNum))].map
                fun t => pyMul t.2.2 t.2.1)) ::
          [((.str "a" : JVal), (.int 2 : PyNum), (.int 5 : PyNum)),
            ((.str "b" : JVal), (.int 1 : PyNum), (.int 3 : PyNum))].map
              (fun t => .orderItem 7 t.1 (.num t.2.1) (.num t.2.2)),
        true) :=
  (c1_checkout_inserts_one_order_n_items
    ⟨"/checkout", "POST", .missing,
      .parsed (.obj [("user_id", .str "u1"),
        ("items", .arr ([((.str "a" : JVal), (.int 2 : PyNum), (.int 5 : PyNum)),
          ((.str "b" : JVal), (.int 1 : PyNum), (.int 3 : PyNum))].map mkCartItem))])⟩
    okWorld (.str "u1")
    [((.str "a" : JVal), (.int 2 : PyNum), (.int 5 : PyNum)),
      ((.str "b" : JVal), (.int 1 : PyNum), (.int 3 : PyNum))]
    [("user_id", .str "u1"),
      ("items", .arr ([((.str "a" : JVal), (.int 2 : PyNum), (.int 5 : PyNum)),
        ((.str "b" : JVal), (.int 1 : PyNum), (.int 3 : PyNum))].map mkCartItem))]
    rfl rfl rfl rfl rfl rfl rfl).1

unseal Rat.mul Rat.add Rat.sub Rat.inv in
/-- C1 counterexample: for the cart `[(p1, quantity 3, price 0.1)]` the claim
says the inserted `total_amount` is the exact-decimal sum `0.1 * 3 = 3/10`;
the code sums the JSON-parsed binary64 floats instead and inserts
`0.30000000000000004 = 1351079888211149 / 2^52 ≠ 3/10`, so the claim's
exact-decimal clause is false (the structural row pattern itself holds). -/
theorem c1_exact_decimal_total_counterexample :
    (checkout cexCheckoutEvent okWorld).1.statusCode = 200 ∧
    (checkout cexCheckoutEvent okWorld).2.2 = true ∧
    (checkout cexCheckoutEvent okWorld).2.1 =
      [.order (.str "u1") (.float (1351079888211149 / 2 ^ 52)),
        .orderItem 7 (.str "p1") (.num (.int 3)) (.num (.float (fpRound (1 / 10))))] ∧
    (1351079888211149 / 2 ^ 52 : ℚ) ≠ (1 / 10) * 3 :=
  ⟨rfl, rfl, rfl, by decide⟩

/-! ## C8 -/

theorem err500_shape (s d : String) :
    hasKeyB (err500 s d).body "error" = true ∧
    hasKeyB (err500 s d).body "details" = true := by
  simp [err500, hasKeyB, lookJ]

theorem list_products_500_shape (w : World) (tbl : DTable)
    (h : (list_products w tbl).statusCode = 500) :
    hasKeyB (list_products w tbl).body "error" = true ∧
    hasKeyB (list_products w tbl).body "details" = true := by
  cases hf : w.scanFault with
  | some m => simp [list_products, hf, err500, hasKeyB, lookJ]
  | none => simp [list_products, hf] at h

theorem get_product_500_shape (ev : Event) (w : World) (tbl : DTable)
    (h : (get_product ev w tbl).statusCode = 500) :
    hasKeyB (get_product ev w tbl).body "error" = true ∧
    hasKeyB (get_product ev w tbl).body "details" = true := by
  cases hid : getPathId ev.pPars with
  | error m => simp [get_product, hid, err500, hasKeyB, lookJ]
  | ok pid =>
    cases hf : w.getFault with
    | some m => simp [get_product, hid, hf, err500, hasKeyB, lookJ]
    | none =>
      cases hl : lookupItem tbl pid with
      | none => simp [get_product, hid, hf, hl] at h
      | some it => simp [get_product, hid, hf, hl] at h

theorem create_product_500_shape (ev : Event) (w : World) (tbl : DTable)
    (h : (create_product ev w tbl).1.statusCode = 500) :
    hasKeyB (create_product ev w tbl).1.body "error" = true ∧
    hasKeyB (create_product ev w tbl).1.body "details" = true := by
  cases hc : create_core ev w tbl with
  | ok t => simp [create_product, hc] at h
  | error m => simp [create_product, hc, err500, hasKeyB, lookJ]

theorem update_product_500_shape (ev : Event) (w : World) (tbl : DTable)
    (r : Resp) (hr : (update_product ev w tbl).1 = .ok r)
    (h : r.statusCode = 500) :
    hasKeyB r.body "error" = true ∧ hasKeyB r.body "details" = true := by
  cases hid : getPathId ev.pPars with
  | error m => simp [update_product, hid] at hr
  | ok pid =>
    cases hu : update_core ev w tbl pid with
    | ok t =>
      simp [update_product, hid, hu] at hr
      subst hr
      simp at h
    | error m =>
      simp [update_product, hid, hu] at hr
      subst hr
      simp [err500, hasKeyB, lookJ]

theorem delete_product_500_shape (ev : Event) (w : World) (tbl : DTable)
    (r : Resp) (hr : (delete_product ev w tbl).1 = .ok r)
    (h : r.statusCode = 500) :
    hasKeyB r.body "error" = true ∧ hasKeyB r.body "details" = true := by
  cases hid : getPathId ev.pPars with
  | error m => simp [delete_product, hid] at hr
  | ok pid =>
    cases hf : w.delFault with
    | some m =>
      simp [delete_product, hid, hf] at hr
      subst hr
      simp [err500, hasKeyB, lookJ]
    | none =>
      simp [delete_product, hid, hf] at hr
      subst hr
      simp at h

theorem checkout_500_shape (ev : Event) (w : World)
    (h : (checkout ev w).1.statusCode = 500) :
    hasKeyB (checkout ev w).1.body "error" = true ∧
    hasKeyB (checkout ev w).1.body "details" = true := by
  rcases hr : checkoutRun ev w with ⟨res, rows, com⟩
  cases res with
  | ok oid => simp [checkout, hr] at h
  | error m => simp [checkout, hr, err500, hasKeyB, lookJ]

/-- C8 (amended): every 500 envelope the router returns carries both an
`error` summary and a `details` field with the fault text; the 400 route
fallback and the 404 not-found body carry only `error`, so the claim's
universal form over all failures fails (see the counterexample). -/
theorem c8_500_envelopes_have_error_and_details (ev : Event) (w : World)
    (tbl : DTable) (r : Resp)
    (hr : (lambda_handler ev w tbl).result = .ok r)
    (h : r.statusCode = 500) :
    hasKeyB r.body "error" = true ∧ hasKeyB r.body "details" = true := by
  unfold lambda_handler at hr
  split at hr
  · simp only [Except.ok.injEq] at hr
    subst hr
    exact list_products_500_shape w tbl h
  · split at hr
    · simp only [Except.ok.injEq] at hr
      subst hr
      exact get_product_500_shape ev w tbl h
    · split at hr
      · simp only [Except.ok.injEq] at hr
        subst hr
        exact create_product_500_shape ev w tbl h
      · split at hr
        · exact update_product_500_shape ev w tbl r hr h
        · split at hr
          · exact delete_product_500_shape ev w tbl r hr h
          · split at hr
            · simp only [Except.ok.injEq] at hr
              subst hr
              exact checkout_500_shape ev w h
            · simp only [Except.ok.injEq] at hr
              subst hr
              simp at h

/-- Witness for the amended C8: a faulting `get_item` produces a 500 whose
body has both fields. -/
theorem c8_500_envelopes_have_error_and_details_witness :
    hasKeyB (err500 "Failed to get product" "boom").body "error" = true ∧
    hasKeyB (err500 "Failed to get product" "boom").body "details" = true :=
  c8_500_envelopes_have_error_and_details
    ⟨"/products/zzz", "GET", .dict [("id", "zzz")], .missing⟩ getFaultWorld []
    (err500 "Failed to get product" "boom") rfl rfl

/-- C8 counterexample: the 400 fallback for an unmatched route is a failure
response (`RouteNotFound` in the spec's taxonomy) whose JSON body has an
`error` summary but no `details` field, so not every failure response
carries `details`. -/
theorem c8_fallback_lacks_details_counterexample :
    (lambda_handler ⟨"/unknown", "GET", .missing, .missing⟩ okWorld []).result =
      .ok ⟨400, .obj [("error", .str "Invalid route or method")]⟩ ∧
    hasKeyB (.obj [("error", .str "Invalid route or method")]) "error" = true ∧
    hasKeyB (.obj [("error", .str "Invalid route or method")]) "details" = false :=
  ⟨rfl, rfl, rfl⟩

/-! ## C4 -/

theorem attrLook_setAttr_self (it : DItem) (k : String) (v : AVal) :
    attrLook (setAttr it k v) k = some v := by
  induction it with
  | nil => simp [setAttr, attrLook]
  | cons kv it ih =>
    obtain ⟨k', v'⟩ := kv
    by_cases h : k' = k
    · simp [setAttr, attrLook, h]
    · simp [setAttr, attrLook, h, ih]

theorem attrLook_setAttr_ne (it : DItem) (k : String) (v : AVal) (a : String)
    (h : a ≠ k) : attrLook (setAttr it k v) a = attrLook it a := by
  induction it with
  | nil => simp [setAttr, attrLook, Ne.symm h]
  | cons kv it ih =>
    obtain ⟨k', v'⟩ := kv
    by_cases hk : k' = k
    · subst hk
      simp [setAttr, attrLook, Ne.symm h]
    · simp [setAttr, attrLook, hk, ih]

theorem lookupItem_putItem_self (tbl : DTable) (pid : String) (it : DItem) :
    lookupItem (putItem tbl pid it) pid = some it := by
  induction tbl with
  | nil => simp [putItem, lookupItem]
  | cons e tbl ih =>
    obtain ⟨k, it'⟩ := e
    by_cases h : k = pid
    · simp [putItem, lookupItem, h]
    · simp [putItem, lookupItem, h, ih]

theorem lookupItem_putItem_ne (tbl : DTable) (pid : String) (it : DItem)
    (q : String) (h : q ≠ pid) :
    lookupItem (putItem tbl pid it) q = lookupItem tbl q := by
  induction tbl with
  | nil => simp [putItem, lookupItem, Ne.symm h]
  | cons e tbl ih =>
    obtain ⟨k, it'⟩ := e
    by_cases hk : k = pid
    · subst hk
      simp [putItem, lookupItem, Ne.symm h]
    · simp [putItem, lookupItem, hk, ih]

/-- C4: for a stored id, `update(id, body)` unconditionally overwrites exactly
`name`, `price` and `stock` — absent fields become `""`, `0` and `0` rather
than keeping the stored values — leaves every other attribute of the item and
every other item unchanged, and acknowledges with 200. -/
theorem c4_update_overwrites_exactly_three_fields (ev : Event) (w : World)
    (tbl : DTable) (pid : String) (itm : DItem) (fs : List (String × JVal))
    (p s : ℚ) (nmA : AVal)
    (hid : getPathId ev.pPars = .ok pid)
    (hex : lookupItem tbl pid = some itm)
    (hb : ev.bodyF = .parsed (.obj fs))
    (hp : decOfPy (getJD fs "price" (.num (.int 0))) = .ok p)
    (hs : decOfPy (getJD fs "stock" (.num (.int 0))) = .ok s)
    (hn : jvalToAVal (getJD fs "name" (.str "")) = .ok nmA)
    (hw : w.updFault = none) :
    update_product ev w tbl =
      (.ok ⟨200, .obj [("message", .str "Product updated successfully")]⟩,
        putItem tbl pid
          (setAttr (setAttr (setAttr itm "name" nmA) "price" (.n p)) "stock" (.n s))) ∧
    (lookJ fs "price" = none → p = 0) ∧
    (lookJ fs "stock" = none → s = 0) ∧
    (lookJ fs "name" = none → nmA = .s "") ∧
    attrLook (setAttr (setAttr (setAttr itm "name" nmA) "price" (.n p)) "stock" (.n s))
      "name" = some nmA ∧
    attrLook (setAttr (setAttr (setAttr itm "name" nmA) "price" (.n p)) "stock" (.n s))
      "price" = some (.n p) ∧
    attrLook (setAttr (setAttr (setAttr itm "name" nmA) "price" (.n p)) "stock" (.n s))
      "stock" = some (.n s) ∧
    (∀ a, a ≠ "name" → a ≠ "price" → a ≠ "stock" →
      attrLook (setAttr (setAttr (setAttr itm "name" nmA) "price" (.n p)) "stock" (.n s))
        a = attrLook itm a) ∧
    (∀ q, q ≠ pid →
      lookupItem (putItem tbl pid
        (setAttr (setAttr (setAttr itm "name" nmA) "price" (.n p)) "stock" (.n s))) q =
      lookupItem tbl q) := by
  refine ⟨?_, ?_, ?_, ?_, ?_, ?_, ?_, ?_, ?_⟩
  · simp [update_product, hid, update_core, getBody, hb, hp, hs, hn, hw, updItem, hex]
  · intro h0
    rw [getJD, h0] at hp
    simp [decOfPy] at hp
    exact hp.symm
  · intro h0
    rw [getJD, h0] at hs
    simp [decOfPy] at hs
    exact hs.symm
  · intro h0
    rw [getJD, h0] at hn
    simp [jvalToAVal] at hn
    exact hn.symm
  · rw [attrLook_setAttr_ne _ _ _ _ (by decide),
      attrLook_setAttr_ne _ _ _ _ (by decide)]
    exact attrLook_setAttr_self itm "name" nmA
  · rw [attrLook_setAttr_ne _ _ _ _ (by decide)]
    exact attrLook_setAttr_self _ "price" _
  · exact attrLook_setAttr_self _ "stock" _
  · intro a ha1 ha2 ha3
    rw [attrLook_setAttr_ne _ _ _ _ ha3, attrLook_setAttr_ne _ _ _ _ ha2,
      attrLook_setAttr_ne _ _ _ _ ha1]
  · intro q hq
    exact lookupItem_putItem_ne tbl pid _ q hq

unseal Rat.mul Rat.add Rat.sub Rat.inv in
/-- Witness for C4: updating stored product `p1` with an empty body zeroes
`price`/`stock`, blanks `name`, and leaves the unrelated `color` attribute
as it was. -/
theorem c4_update_overwrites_exactly_three_fields_witness :
    update_product ⟨"/products/p1", "PUT", .dict [("id", "p1")], .parsed (.obj [])⟩
        okWorld
        [("p1", [("product_id", AVal.s "p1"), ("name", AVal.s "Old"),
          ("price", AVal.n 5), ("stock", AVal.n 2), ("color", AVal.s "red")])] =
      (.ok ⟨200, .obj [("message", .str "Product updated successfully")]⟩,
        putItem
          [("p1", [("product_id", AVal.s "p1"), ("name", AVal.s "Old"),
            ("price", AVal.n 5), ("stock", AVal.n 2), ("color", AVal.s "red")])]
          "p1"
          (setAttr (setAttr (setAttr
            [("product_id", AVal.s "p1"), ("name", AVal.s "Old"),
              ("price", AVal.n 5), ("stock", AVal.n 2), ("color", AVal.s "red")]
            "name" (.s "")) "price" (.n 0)) "stock" (.n 0))) ∧
    attrLook
      (setAttr (setAttr (setAttr
        [("product_id", AVal.s "p1"), ("name", AVal.s "Old"),
          ("price", AVal.n 5), ("stock", AVal.n 2), ("color", AVal.s "red")]
        "name" (.s "")) "price" (.n 0)) "stock" (.n 0)) "color" =
      attrLook
        [("product_id", AVal.s "p1"), ("name", AVal.s "Old"),
          ("price", AVal.n 5), ("stock", AVal.n 2), ("color", AVal.s "red")]
        "color" := by
  have h := c4_update_overwrites_exactly_three_fields
    ⟨"/products/p1", "PUT", .dict [("id", "p1")], .parsed (.obj [])⟩ okWorld
    [("p1", [("product_id", AVal.s "p1"), ("name", AVal.s "Old"),
      ("price", AVal.n 5), ("stock", AVal.n 2), ("color", AVal.s "red")])]
    "p1"
    [("product_id", AVal.s "p1"), ("name", AVal.s "Old"),
      ("price", AVal.n 5), ("stock", AVal.n 2), ("color", AVal.s "red")]
    [] 0 0 (.s "") rfl rfl rfl (by simp [getJD, lookJ, decOfPy])
    (by simp [getJD, lookJ, decOfPy]) rfl rfl
  exact ⟨h.1, h.2.2.2.2.2.2.2.1 "color" (by decide) (by decide) (by decide)⟩

/-! ## C3 -/

theorem lookJ_mem (fs : List (String × JVal)) (k : String) (v : JVal)
    (h : lookJ fs k = some v) : (k, v) ∈ fs := by
  induction fs with
  | nil => simp [lookJ] at h
  | cons e fs ih =>
    obtain ⟨k', v'⟩ := e
    by_cases hk : k' = k
    · subst hk
      simp [lookJ] at h
      simp [h]
    · simp [lookJ, hk] at h
      simp [ih h]

theorem lookJ_isSome_of_mem (fs : List (String × JVal)) (k : String) (v : JVal)
    (h : (k, v) ∈ fs) : (lookJ fs k).isSome := by
  induction fs with
  | nil => simp at h
  | cons e fs ih =>
    obtain ⟨k', v'⟩ := e
    by_cases hk : k' = k
    · simp [lookJ, hk]
    · rcases List.mem_cons.mp h with h1 | h1
      · exfalso
        apply hk
        simp at h1
        exact h1.1.symm
      · simp [lookJ, hk, ih h1]

theorem lookJ_setJ_ne (fs : List (String × JVal)) (k : String) (x : JVal)
    (k' : String) (h : k' ≠ k) : lookJ (setJ fs k x) k' = lookJ fs k' := by
  induction fs with
  | nil => simp [setJ]
  | cons e fs ih =>
    obtain ⟨k0, v0⟩ := e
    by_cases hk : k0 = k
    · subst hk
      simp [setJ, lookJ, Ne.symm h]
    · simp [setJ, lookJ, hk, ih]

theorem keys_setJ (fs : List (String × JVal)) (k : String) (x : JVal) :
    (setJ fs k x).map Prod.fst = fs.map Prod.fst := by
  induction fs with
  | nil => simp [setJ]
  | cons e fs ih =>
    obtain ⟨k0, v0⟩ := e
    by_cases hk : k0 = k
    · simp [setJ, hk]
    · simp [setJ, hk, ih]

theorem mem_setJ_of_look (fs : List (String × JVal)) (k : String) (x v : JVal)
    (kv : String × JVal) (hnd : (fs.map Prod.fst).Nodup)
    (hlk : lookJ fs k = some v) (hm : kv ∈ setJ fs k x) :
    (kv ∈ fs ∧ kv.1 ≠ k) ∨ kv = (k, x) := by
  induction fs with
  | nil => simp [setJ] at hm
  | cons e fs ih =>
    obtain ⟨k0, v0⟩ := e
    simp only [List.map, List.nodup_cons] at hnd
    by_cases hk : k0 = k
    · subst hk
      simp only [setJ, if_pos rfl] at hm
      rcases List.mem_cons.mp hm with h1 | h1
      · right; exact h1
      · left
        refine ⟨List.mem_cons_of_mem _ h1, ?_⟩
        intro hkv
        exact hnd.1 (hkv ▸ List.mem_map_of_mem Prod.fst h1)
    · simp only [setJ, if_neg hk] at hm
      rcases List.mem_cons.mp hm with h1 | h1
      · left
        constructor
        · simp [h1]
        · subst h1; exact hk
      · rw [lookJ, if_neg hk] at hlk
        rcases ih hnd.2 hlk h1 with ⟨h2, h3⟩ | h2
        · exact Or.inl ⟨List.mem_cons_of_mem _ h2, h3⟩
        · exact Or.inr h2

theorem storeVal_map_setJ (fs : List (String × JVal)) (k : String) (x v : JVal)
    (hlk : lookJ fs k = some v) (hsd : storeVal x = storeVal v) :
    ((setJ fs k x).map fun kv => (kv.1, storeVal kv.2)) =
      fs.map fun kv => (kv.1, storeVal kv.2) := by
  induction fs with
  | nil => simp [setJ]
  | cons e fs ih =>
    obtain ⟨k0, v0⟩ := e
    by_cases hk : k0 = k
    · rw [lookJ, if_pos hk] at hlk
      have hv : v0 = v := by injection hlk
      simp [setJ, hk, hsd, hv]
    · rw [lookJ, if_neg hk] at hlk
      simp [setJ, hk, ih hlk]

theorem jvalOToA_map (fs : List (String × JVal))
    (h : ∀ kv ∈ fs, convStore kv.2) :
    jvalOToA fs = .ok (fs.map fun kv => (kv.1, storeVal kv.2)) := by
  induction fs with
  | nil => simp [jvalOToA]
  | cons kv fs ih =>
    obtain ⟨k, v⟩ := kv
    have h1 : jvalToAVal v = .ok (storeVal v) := h (k, v) (List.mem_cons_self _ _)
    have h2 := ih fun kv hm => h kv (List.mem_cons_of_mem _ hm)
    simp [jvalOToA, h1, h2]

theorem attrLook_map_store (fs : List (String × JVal)) (k : String) :
    attrLook (fs.map fun kv => (kv.1, storeVal kv.2)) k =
      (lookJ fs k).map storeVal := by
  induction fs with
  | nil => simp [attrLook, lookJ]
  | cons e fs ih =>
    obtain ⟨k0, v0⟩ := e
    by_cases hk : k0 = k
    · simp [attrLook, lookJ, hk]
    · simp [attrLook, lookJ, hk, ih]

theorem avalOToJ_eq_map (it : DItem) :
    avalOToJ it = it.map fun kv => (kv.1, avalToJVal kv.2) := by
  induction it with
  | nil => simp [avalOToJ]
  | cons e it ih =>
    obtain ⟨k, v⟩ := e
    simp [avalOToJ, ih]

theorem fieldOK_ps_decOK (k : String) (v : JVal)
    (hk : k = "price" ∨ k = "stock") (h : fieldOK k v) : decOK v := by
  rw [fieldOK, if_pos hk] at h
  rcases h with ⟨n, rfl, _⟩ | ⟨q, rfl, _⟩
  · exact ⟨(n : ℚ), rfl, rfl⟩
  · exact ⟨pyFloatToDec q, rfl, rfl⟩

theorem fieldOK_other_conv (k : String) (v : JVal)
    (hk : ¬(k = "price" ∨ k = "stock")) (h : fieldOK k v) : convStore v := by
  rw [fieldOK, if_neg hk] at h
  rcases h with (⟨s, rfl⟩ | ⟨b, rfl⟩ | rfl) | ⟨n, rfl, _⟩ <;> rfl

theorem fieldOK_rt (k : String) (v : JVal) (h : fieldOK k v) :
    avalToJVal (storeVal v) = rtVal v := by
  rw [fieldOK] at h
  split at h
  · rcases h with ⟨n, rfl, hn⟩ | ⟨q, rfl, hq⟩
    · simp [storeVal, avalToJVal, rtVal, PyNum.toRat, hn]
    · simp [storeVal, avalToJVal, rtVal, PyNum.toRat, hq]
  · rcases h with (⟨s, rfl⟩ | ⟨b, rfl⟩ | rfl) | ⟨n, rfl, hn⟩ <;>
      simp [storeVal, avalToJVal, rtVal, PyNum.toRat, *]

theorem numEqJ_rtVal (v : JVal) : numEqJ (rtVal v) v := by
  cases v <;> simp [rtVal, numEqJ, PyNum.toRat]

theorem coercePS_spec (k : String) (fs : List (String × JVal))
    (hnd : (fs.map Prod.fst).Nodup)
    (hok : ∀ v, lookJ fs k = some v → decOK v) :
    ∃ fs', coercePS fs k = .ok fs' ∧
      ((fs'.map fun kv => (kv.1, storeVal kv.2)) =
        fs.map fun kv => (kv.1, storeVal kv.2)) ∧
      fs'.map Prod.fst = fs.map Prod.fst ∧
      (∀ k', k' ≠ k → lookJ fs' k' = lookJ fs k') ∧
      (∀ kv, kv ∈ fs' → (kv ∈ fs ∧ kv.1 ≠ k) ∨ ∃ d, kv.2 = .dec d) := by
  cases hlk : lookJ fs k with
  | none =>
    refine ⟨fs, by simp [coercePS, hlk], rfl, rfl, fun _ _ => rfl, ?_⟩
    intro kv hm
    left
    refine ⟨hm, fun hk => ?_⟩
    have h1 : (lookJ fs kv.1).isSome := lookJ_isSome_of_mem fs kv.1 kv.2 hm
    rw [hk, hlk] at h1
    simp at h1
  | some v =>
    obtain ⟨d, hd, hsd⟩ := hok v hlk
    refine ⟨setJ fs k (.dec d), by simp [coercePS, hlk, hd],
      storeVal_map_setJ fs k _ v hlk hsd, keys_setJ fs k _,
      fun k' hk' => lookJ_setJ_ne fs k _ k' hk', ?_⟩
    intro kv hm
    rcases mem_setJ_of_look fs k (.dec d) v kv hnd hlk hm with h1 | h1
    · exact Or.inl h1
    · exact Or.inr ⟨d, by rw [h1]⟩

/-- C3: for a valid product payload (string `product_id`, numeric
`price`/`stock` that round-trip through `Decimal(str(float(...)))`, plain or
exactly-representable-integer other fields, distinct keys), `create(P)`
acknowledges with 200 and `getById(P.product_id)` returns 200 with a body
equal to `P` field-by-field, each numeric field coming back as a float of the
same numeric value. -/
theorem c3_create_then_get_roundtrips (evC evG : Event) (w : World)
    (tbl : DTable) (fs : List (String × JVal)) (pid : String)
    (hnd : (fs.map Prod.fst).Nodup)
    (hb : evC.bodyF = .parsed (.obj fs))
    (hpid : lookJ fs "product_id" = some (.str pid))
    (hok : ∀ kv ∈ fs, fieldOK kv.1 kv.2)
    (hput : w.putFault = none)
    (hid : getPathId evG.pPars = .ok pid)
    (hget : w.getFault = none) :
    (create_product evC w tbl).1 =
      ⟨200, .obj [("message", .str "Product created successfully")]⟩ ∧
    get_product evG w (create_product evC w tbl).2 =
      ⟨200, .obj (fs.map fun kv => (kv.1, rtVal kv.2))⟩ ∧
    ∀ kv ∈ fs, numEqJ (rtVal kv.2) kv.2 := by
  have hokP : ∀ v, lookJ fs "price" = some v → decOK v := by
    intro v hv
    exact fieldOK_ps_decOK "price" v (Or.inl rfl)
      (hok ("price", v) (lookJ_mem fs "price" v hv))
  obtain ⟨fs1, hc1, hmap1, hkeys1, hlook1, hmem1⟩ := coercePS_spec "price" fs hnd hokP
  have hnd1 : (fs1.map Prod.fst).Nodup := by rw [hkeys1]; exact hnd
  have hokS : ∀ v, lookJ fs1 "stock" = some v → decOK v := by
    intro v hv
    rw [hlook1 "stock" (by decide)] at hv
    exact fieldOK_ps_decOK "stock" v (Or.inr rfl)
      (hok ("stock", v) (lookJ_mem fs "stock" v hv))
  obtain ⟨fs2, hc2, hmap2, hkeys2, hlook2, hmem2⟩ :=
    coercePS_spec "stock" fs1 hnd1 hokS
  have convAll : ∀ kv ∈ fs2, convStore kv.2 := by
    intro kv hm2
    rcases hmem2 kv hm2 with ⟨hm1, hne2⟩ | ⟨d, hd⟩
    · rcases hmem1 kv hm1 with ⟨hm0, hne1⟩ | ⟨d, hd⟩
      · refine fieldOK_other_conv kv.1 kv.2 ?_ (hok kv hm0)
        rintro (h | h)
        · exact hne1 h
        · exact hne2 h
      · rw [hd]; rfl
    · rw [hd]; rfl
  have hoToA : jvalOToA fs2 = .ok (fs.map fun kv => (kv.1, storeVal kv.2)) := by
    rw [jvalOToA_map fs2 convAll, hmap2, hmap1]
  have hal : attrLook (fs.map fun kv => (kv.1, storeVal kv.2)) "product_id" =
      some (.s pid) := by
    rw [attrLook_map_store, hpid]
    rfl
  have hcc : create_core evC w tbl =
      .ok (putItem tbl pid (fs.map fun kv => (kv.1, storeVal kv.2))) := by
    simp [create_core, getBody, hb, hc1, hc2, putBody, hoToA, hal, hput]
  have hcp : create_product evC w tbl =
      (⟨200, .obj [("message", .str "Product created successfully")]⟩,
        putItem tbl pid (fs.map fun kv => (kv.1, storeVal kv.2))) := by
    simp [create_product, hcc]
  have hitem : itemToJVal (fs.map fun kv => (kv.1, storeVal kv.2)) =
      .obj (fs.map fun kv => (kv.1, rtVal kv.2)) := by
    rw [itemToJVal, avalOToJ_eq_map, List.map_map]
    congr 1
    refine List.map_congr_left ?_
    intro kv hm
    simp only [Function.comp]
    rw [fieldOK_rt kv.1 kv.2 (hok kv hm)]
  refine ⟨by rw [hcp], ?_, fun kv _ => numEqJ_rtVal kv.2⟩
  rw [hcp]
  simp [get_product, hid, hget, lookupItem_putItem_self, hitem]

unseal Rat.mul Rat.add Rat.sub Rat.inv in
/-- Witness for C3: the payload `(product_id "p1", name "Widget", price 9.99,
stock 10)` — with `9.99` parsed to its binary64 value — creates, then reads
back field-by-field with both numerics as floats of the same value. -/
theorem c3_create_then_get_roundtrips_witness :
    (create_product
        ⟨"/products", "POST", .missing,
          .parsed (.obj [("product_id", .str "p1"), ("name", .str "Widget"),
            ("price", .num (.float (fpRound (999 / 100)))),
            ("stock", .num (.int 10))])⟩ okWorld []).1 =
      ⟨200, .obj [("message", .str "Product created successfully")]⟩ ∧
    get_product ⟨"/products/p1", "GET", .dict [("id", "p1")], .missing⟩ okWorld
        (create_product
          ⟨"/products", "POST", .missing,
            .parsed (.obj [("product_id", .str "p1"), ("name", .str "Widget"),
              ("price", .num (.float (fpRound (999 / 100)))),
              ("stock", .num (.int 10))])⟩ okWorld []).2 =
      ⟨200, .obj ([("product_id", JVal.str "p1"), ("name", JVal.str "Widget"),
        ("price", JVal.num (.float (fpRound (999 / 100)))),
        ("stock", JVal.num (.int 10))].map fun kv => (kv.1, rtVal kv.2))⟩ ∧
    ∀ kv ∈ [("product_id", JVal.str "p1"), ("name", JVal.str "Widget"),
        ("price", JVal.num (.float (fpRound (999 / 100)))),
        ("stock", JVal.num (.int 10))],
      numEqJ (rtVal kv.2) kv.2 :=
  c3_create_then_get_roundtrips
    ⟨"/products", "POST", .missing,
      .parsed (.obj [("product_id", .str "p1"), ("name", .str "Widget"),
        ("price", .num (.float (fpRound (999 / 100)))),
        ("stock", .num (.int 10))])⟩
    ⟨"/products/p1", "GET", .dict [("id", "p1")], .missing⟩ okWorld []
    [("product_id", .str "p1"), ("name", .str "Widget"),
      ("price", .num (.float (fpRound (999 / 100)))),
      ("stock", .num (.int 10))] "p1"
    (by decide) rfl rfl
    (by
      intro kv hm
      fin_cases hm
      · rw [fieldOK, if_neg (by decide)]
        exact Or.inl (Or.inl ⟨"p1", rfl⟩)
      · rw [fieldOK, if_neg (by decide)]
        exact Or.inl (Or.inl ⟨"Widget", rfl⟩)
      · rw [fieldOK, if_pos (by decide)]
        exact Or.inr ⟨fpRound (999 / 100), rfl, by decide⟩
      · rw [fieldOK, if_pos (by decide)]
        exact Or.inl ⟨10, rfl, by decide⟩)
    rfl rfl rfl
